import Mathlib

/-!
# idiom::ChessProfiler (src/idiom/chess_profiler.cpp)

A shallow embedding of the controller of the idiom CHESS profiler.

The controller is glue code: every statement is a call to a collaborator
(the option table, the three stores, the three analyzers, the static info).
The embedding keeps the controller's own control flow and records, in call
order, every effectful call it makes as an `Event` of a trace.  Objects are
named by heap addresses (`Ref`), handed out by a counter, so that "the same
instance" is a statement about addresses.  The collaborators whose classes
are declared outside this file enter as parameters:

* `Knob`        the option table after command line parsing,
* `StaticInfo`  the image table and its `FindImage`,
* `IMG`         the image handle of the instrumentation framework,
* `enabled`     what `Enabled()` answers for each analyzer.
-/

namespace idiom

/-! ## Collaborators taken as parameters -/

/-- Image handle of the instrumentation framework, seen through the two
accessors the controller uses: `IMG_Valid` and `IMG_Name`. -/
structure IMG where
  valid : Bool
  name : String
  deriving DecidableEq, Repr

def IMG_Valid (img : IMG) : Bool := img.valid

def IMG_Name (img : IMG) : String := img.name

/-- Static image record, seen through the two flags the controller reads. -/
structure Image where
  pthread : Bool
  common_lib : Bool
  deriving DecidableEq, Repr

def Image.IsPthread (image : Image) : Bool := image.pthread

def Image.IsCommonLib (image : Image) : Bool := image.common_lib

/-- Static info `sinfo_`: `FindImage` answers `none` for the NULL pointer. -/
structure StaticInfo where
  FindImage : String → Option Image

/-- Option table `knob_` as the controller reads it. -/
structure Knob where
  ValueBool : String → Bool
  ValueStr : String → String

/-! ## Heap objects and the trace of calls -/

/-- Heap address of an object created with `new` or by `CreateMutex`. -/
abbrev Ref := Nat

/-- The three persistent stores, by the member that holds them. -/
inductive Store
  | iroot_db
  | memo
  | sinst_db
  deriving DecidableEq, Repr

/-- The three analyzers, by the member that holds them. -/
inductive AnalyzerClass
  | sinst_analyzer
  | observer
  | observer_new
  deriving DecidableEq, Repr

/-- One effectful call made by the controller.  The static info `sinfo_`
is the single object of the base controller and is passed unchanged to
every `Load`, `Save` and observer `Setup`; the events do not repeat it. -/
inductive Event
  -- `systematic::Controller::HandlePreSetup()`
  | baseHandlePreSetup
  -- `systematic::Controller::HandlePostSetup()`
  | baseHandlePostSetup
  -- `systematic::Controller::HandleProgramExit()`
  | baseHandleProgramExit
  -- `knob_->RegisterBool(name, desc, val)`
  | RegisterBool (name desc val : String)
  -- `knob_->RegisterStr(name, desc, val)`
  | RegisterStr (name desc val : String)
  -- `new C(knob_)` for an analyzer class `C`
  | newAnalyzer (cls : AnalyzerClass) (obj : Ref)
  -- `obj->Register()` on an analyzer
  | Register (cls : AnalyzerClass) (obj : Ref)
  -- `CreateMutex()` returning `mutex`
  | CreateMutex (mutex : Ref)
  -- `new iRootDB(mutex)`
  | newIRootDB (obj mutex : Ref)
  -- `new Memo(mutex, iroot_db)`
  | newMemo (obj mutex iroot_db : Ref)
  -- `new sinst::SharedInstDB(mutex)`
  | newSharedInstDB (obj mutex : Ref)
  -- `obj->Load(path, sinfo_)` on a store
  | Load (store : Store) (obj : Ref) (path : String)
  -- `sinst_analyzer_->Setup(mutex, sinst_db)`
  | SetupSharedInstAnalyzer (obj mutex sinst_db : Ref)
  -- `obj->Setup(mutex, sinfo_, iroot_db, memo, sinst_db)` on an observer
  | SetupObserver (cls : AnalyzerClass) (obj mutex iroot_db memo sinst_db : Ref)
  -- `AddAnalyzer(obj)`
  | AddAnalyzer (cls : AnalyzerClass) (obj : Ref)
  -- `Abort(msg)`
  | Abort (msg : String)
  -- `memo_->RefineCandidate(memo_failed, flag)`
  | RefineCandidate (obj : Ref) (memo_failed flag : Bool)
  -- `obj->Save(path, sinfo_)` on a store
  | Save (store : Store) (obj : Ref) (path : String)
  deriving DecidableEq, Repr

/-- The controller object: the inherited `knob_` and `sinfo_`, the six
pointer members of `ChessProfiler` (`none` is NULL), the answers of the
analyzers to `Enabled()`, the next unused heap address, and the trace of
calls made so far, oldest first. -/
structure ChessProfiler where
  knob_ : Knob
  sinfo_ : StaticInfo
  enabled : AnalyzerClass → Bool
  iroot_db_ : Option Ref
  memo_ : Option Ref
  sinst_db_ : Option Ref
  sinst_analyzer_ : Option Ref
  observer_ : Option Ref
  observer_new_ : Option Ref
  fresh : Nat
  trace : List Event

/-- Constructor `ChessProfiler::ChessProfiler()`: every pointer member
starts NULL. -/
def ChessProfiler.new (knob : Knob) (sinfo : StaticInfo)
    (enabled : AnalyzerClass → Bool) : ChessProfiler :=
  { knob_ := knob, sinfo_ := sinfo, enabled := enabled,
    iroot_db_ := none, memo_ := none, sinst_db_ := none,
    sinst_analyzer_ := none, observer_ := none, observer_new_ := none,
    fresh := 0, trace := [] }

/-! ## The two filtering predicates -/

/-- What a filtering predicate did: the names it passed to `FindImage`, in
call order, and its return value (`none`: `DEBUG_ASSERT(image)` failed, the
looked-up pointer was NULL). -/
structure Verdict where
  lookups : List String
  result : Option Bool
  deriving DecidableEq, Repr

/-- Method `ChessProfiler::HandleIgnoreInstCount(IMG img)`. -/
def HandleIgnoreInstCount (self : ChessProfiler) (img : IMG) : Verdict :=
  if self.knob_.ValueBool "ignore_ic_pthread" then
    if !IMG_Valid img then
      { lookups := [], result := some false }
    else
      match self.sinfo_.FindImage (IMG_Name img) with
      | none => { lookups := [IMG_Name img], result := none }
      | some image =>
        if image.IsPthread then
          { lookups := [IMG_Name img], result := some true }
        else
          { lookups := [IMG_Name img], result := some false }
  else
    { lookups := [], result := some false }

/-- Method `ChessProfiler::HandleIgnoreMemAccess(IMG img)`. -/
def HandleIgnoreMemAccess (self : ChessProfiler) (img : IMG) : Verdict :=
  if !IMG_Valid img then
    { lookups := [], result := some true }
  else
    match self.sinfo_.FindImage (IMG_Name img) with
    | none => { lookups := [IMG_Name img], result := none }
    | some image =>
      if image.IsPthread then
        { lookups := [IMG_Name img], result := some true }
      else if self.knob_.ValueBool "ignore_lib" then
        if image.IsCommonLib then
          { lookups := [IMG_Name img], result := some true }
        else
          { lookups := [IMG_Name img], result := some false }
      else
        { lookups := [IMG_Name img], result := some false }

/-- The precondition of the filtering claims: every valid image is found
in the static info. -/
def ImageKnown (self : ChessProfiler) (img : IMG) : Prop :=
  IMG_Valid img = true → ∃ image, self.sinfo_.FindImage (IMG_Name img) = some image

/-! ## Control flow of the lifecycle handlers -/

/-- How a handler ends: it returns (`done`), the process is stopped by
`Abort` (`aborted`), or a NULL member is dereferenced (`fault`).  Each case
carries the controller as it is at that moment. -/
inductive Result (α : Type)
  | done (a : α) (s : ChessProfiler)
  | aborted (s : ChessProfiler)
  | fault (s : ChessProfiler)

/-- A statement sequence of a handler. -/
def Step (α : Type) : Type := ChessProfiler → Result α

def Step.pure {α : Type} (a : α) : Step α := fun s => .done a s

def Step.bind {α β : Type} (m : Step α) (f : α → Step β) : Step β := fun s =>
  match m s with
  | .done a s1 => f a s1
  | .aborted s1 => .aborted s1
  | .fault s1 => .fault s1

instance : Monad Step where
  pure := Step.pure
  bind := Step.bind

/-- The controller at the end of a handler, however it ended. -/
def Result.state {α : Type} : Result α → ChessProfiler
  | .done _ s => s
  | .aborted s => s
  | .fault s => s

def Result.isDone {α : Type} : Result α → Bool
  | .done _ _ => true
  | _ => false

def Result.isAborted {α : Type} : Result α → Bool
  | .aborted _ => true
  | _ => false

/-- The calls made by a handler started on `s` that ended as `r`. -/
def Result.events {α : Type} (r : Result α) (s : ChessProfiler) : List Event :=
  r.state.trace.drop s.trace.length

/-- Record one call in the trace. -/
def emit (e : Event) : Step Unit := fun s =>
  .done () { s with trace := s.trace ++ [e] }

/-- Take the next unused heap address. -/
def alloc : Step Ref := fun s =>
  .done s.fresh { s with fresh := s.fresh + 1 }

/-- Use a pointer member as the receiver or an argument of a call; a NULL
member is a fault. -/
def deref (member : ChessProfiler → Option Ref) : Step Ref := fun s =>
  match member s with
  | some obj => .done obj s
  | none => .fault s

def ValueBool (name : String) : Step Bool := fun s =>
  .done (s.knob_.ValueBool name) s

def ValueStr (name : String) : Step String := fun s =>
  .done (s.knob_.ValueStr name) s

/-- Method `CreateMutex()` of the base controller: a new mutex object. -/
def CreateMutex : Step Ref := do
  let mutex ← alloc
  emit (.CreateMutex mutex)
  pure mutex

/-- The pointer member holding the analyzer of a class. -/
def AnalyzerClass.member : AnalyzerClass → ChessProfiler → Option Ref
  | .sinst_analyzer => ChessProfiler.sinst_analyzer_
  | .observer => ChessProfiler.observer_
  | .observer_new => ChessProfiler.observer_new_

/-- Call `analyzer->Enabled()`: dereferences the member, then answers from
the option of that analyzer, the same answer at every call. -/
def Enabled (cls : AnalyzerClass) : Step Bool := do
  let _ ← deref cls.member
  fun s => .done (s.enabled cls) s

/-- Modelled from the spec: `Abort` is declared outside this file; by the
spec the conflict is "fatal, reported to the user ..., process aborts ... not
recoverable", so the call is recorded and nothing after it runs. -/
def Abort {α : Type} (msg : String) : Step α := fun s =>
  .aborted { s with trace := s.trace ++ [.Abort msg] }

/-- Assignment to the pointer member of a store. -/
def Store.assign (store : Store) (obj : Ref) : Step Unit := fun s =>
  match store with
  | .iroot_db => .done () { s with iroot_db_ := some obj }
  | .memo => .done () { s with memo_ := some obj }
  | .sinst_db => .done () { s with sinst_db_ := some obj }

/-- Assignment to the pointer member of an analyzer. -/
def AnalyzerClass.assign (cls : AnalyzerClass) (obj : Ref) : Step Unit := fun s =>
  match cls with
  | .sinst_analyzer => .done () { s with sinst_analyzer_ := some obj }
  | .observer => .done () { s with observer_ := some obj }
  | .observer_new => .done () { s with observer_new_ := some obj }

/-- Expression `new C(knob_)` for an analyzer class `C`. -/
def newAnalyzer (cls : AnalyzerClass) : Step Ref := do
  let obj ← alloc
  emit (.newAnalyzer cls obj)
  pure obj

/-- Method `ChessProfiler::HandlePreSetup()`. -/
def HandlePreSetup : Step Unit := do
  emit .baseHandlePreSetup

  emit (.RegisterBool "ignore_ic_pthread" "do not count instructions in pthread" "1")
  emit (.RegisterBool "ignore_lib" "whether ignore accesses from common libraries" "0")
  emit (.RegisterBool "memo_failed" "Whether memoize failed-to-expose iroots." "1")
  emit (.RegisterStr "iroot_in" "The input iroot database." "iroot.db")
  emit (.RegisterStr "iroot_out" "The output iroot database" "iroot.db")
  emit (.RegisterStr "memo_in" "The input memorization database." "memo.db")
  emit (.RegisterStr "memo_out" "The output memorization database." "memo.db")
  emit (.RegisterStr "sinst_in" "The input shared instruction database." "sinst.db")
  emit (.RegisterStr "sinst_out" "The output shared instruction database." "sinst.db")

  let obj ← newAnalyzer .sinst_analyzer
  AnalyzerClass.sinst_analyzer.assign obj
  let obj ← newAnalyzer .observer
  AnalyzerClass.observer.assign obj
  let obj ← newAnalyzer .observer_new
  AnalyzerClass.observer_new.assign obj
  let obj ← deref ChessProfiler.sinst_analyzer_
  emit (.Register .sinst_analyzer obj)
  let obj ← deref ChessProfiler.observer_
  emit (.Register .observer obj)
  let obj ← deref ChessProfiler.observer_new_
  emit (.Register .observer_new obj)

/-- Method `ChessProfiler::HandlePostSetup()`. -/
def HandlePostSetup : Step Unit := do
  emit .baseHandlePostSetup

  -- load iroot db
  let mutex ← CreateMutex
  let obj ← alloc
  emit (.newIRootDB obj mutex)
  Store.iroot_db.assign obj
  let iroot_db ← deref ChessProfiler.iroot_db_
  let path ← ValueStr "iroot_in"
  emit (.Load .iroot_db iroot_db path)
  -- load memoization db
  let mutex ← CreateMutex
  let iroot_db ← deref ChessProfiler.iroot_db_
  let obj ← alloc
  emit (.newMemo obj mutex iroot_db)
  Store.memo.assign obj
  let memo ← deref ChessProfiler.memo_
  let path ← ValueStr "memo_in"
  emit (.Load .memo memo path)
  -- load shared inst db
  let mutex ← CreateMutex
  let obj ← alloc
  emit (.newSharedInstDB obj mutex)
  Store.sinst_db.assign obj
  let sinst_db ← deref ChessProfiler.sinst_db_
  let path ← ValueStr "sinst_in"
  emit (.Load .sinst_db sinst_db path)

  if ← Enabled .sinst_analyzer then
    -- create sinst analyzer
    let mutex ← CreateMutex
    let sinst_db ← deref ChessProfiler.sinst_db_
    let analyzer ← deref ChessProfiler.sinst_analyzer_
    emit (.SetupSharedInstAnalyzer analyzer mutex sinst_db)
    let analyzer ← deref ChessProfiler.sinst_analyzer_
    emit (.AddAnalyzer .sinst_analyzer analyzer)

  -- make sure that we only use one type of observer
  let observer_enabled ← Enabled .observer
  let both ← if observer_enabled then Enabled .observer_new else pure false
  if both then
    Abort "Please choose an observer.\n"

  if ← Enabled .observer then
    -- create iRoot observer
    let mutex ← CreateMutex
    let iroot_db ← deref ChessProfiler.iroot_db_
    let memo ← deref ChessProfiler.memo_
    let sinst_db ← deref ChessProfiler.sinst_db_
    let analyzer ← deref ChessProfiler.observer_
    emit (.SetupObserver .observer analyzer mutex iroot_db memo sinst_db)
    let analyzer ← deref ChessProfiler.observer_
    emit (.AddAnalyzer .observer analyzer)

  if ← Enabled .observer_new then
    -- create iRoot observer (NEW)
    let mutex ← CreateMutex
    let iroot_db ← deref ChessProfiler.iroot_db_
    let memo ← deref ChessProfiler.memo_
    let sinst_db ← deref ChessProfiler.sinst_db_
    let analyzer ← deref ChessProfiler.observer_new_
    emit (.SetupObserver .observer_new analyzer mutex iroot_db memo sinst_db)
    let analyzer ← deref ChessProfiler.observer_new_
    emit (.AddAnalyzer .observer_new analyzer)

/-- Method `ChessProfiler::HandleProgramExit()`. -/
def HandleProgramExit : Step Unit := do
  emit .baseHandleProgramExit

  let memo_failed ← ValueBool "memo_failed"
  let memo ← deref ChessProfiler.memo_
  emit (.RefineCandidate memo memo_failed false)

  -- save iroot db
  let path ← ValueStr "iroot_out"
  let iroot_db ← deref ChessProfiler.iroot_db_
  emit (.Save .iroot_db iroot_db path)
  -- save memoization db
  let path ← ValueStr "memo_out"
  let memo ← deref ChessProfiler.memo_
  emit (.Save .memo memo path)
  -- save shared instruction db
  let path ← ValueStr "sinst_out"
  let sinst_db ← deref ChessProfiler.sinst_db_
  emit (.Save .sinst_db sinst_db path)

/-! ## Observations on a trace -/

/-- The analyzer members are all set (the controller went through
`HandlePreSetup`): they hold `a`, `o` and `n`. -/
def Wired (s : ChessProfiler) (a o n : Ref) : Prop :=
  s.sinst_analyzer_ = some a ∧ s.observer_ = some o ∧ s.observer_new_ = some n

def Event.isAbort : Event → Bool
  | .Abort _ => true
  | _ => false

/-- Whether `Abort` was called. -/
def calledAbort (evs : List Event) : Bool := evs.any Event.isAbort

/-- The receivers of the `Setup` calls on analyzers of class `cls`. -/
def setUp (cls : AnalyzerClass) (evs : List Event) : List Ref :=
  evs.filterMap fun e =>
    match e with
    | .SetupSharedInstAnalyzer obj _ _ => if cls = .sinst_analyzer then some obj else none
    | .SetupObserver c obj _ _ _ _ => if c = cls then some obj else none
    | _ => none

/-- The analyzers of class `cls` passed to `AddAnalyzer`. -/
def added (cls : AnalyzerClass) (evs : List Event) : List Ref :=
  evs.filterMap fun e =>
    match e with
    | .AddAnalyzer c obj => if c = cls then some obj else none
    | _ => none

/-- The `Load` calls: store, object, path. -/
def loads (evs : List Event) : List (Store × Ref × String) :=
  evs.filterMap fun e =>
    match e with
    | .Load store obj path => some (store, obj, path)
    | _ => none

/-- The `Save` calls: store, object, path. -/
def saves (evs : List Event) : List (Store × Ref × String) :=
  evs.filterMap fun e =>
    match e with
    | .Save store obj path => some (store, obj, path)
    | _ => none

/-- The `RegisterBool` and `RegisterStr` calls. -/
def registrations (evs : List Event) : List Event :=
  evs.filter fun e =>
    match e with
    | .RegisterBool _ _ _ => true
    | .RegisterStr _ _ _ => true
    | _ => false

/-- The claimed result of the memory-access filter, in the words of the
spec: ignored iff the image is invalid, or is the threading library, or
common libraries are excluded and it is one. -/
def ignoreMemAccessSpec (valid pthread common_lib ignore_lib : Bool) : Bool :=
  !valid || pthread || (ignore_lib && common_lib)

/-- The claimed result of the instruction-count filter, in the words of
the spec: ignored iff the option is on, the image is valid and it is the
threading library. -/
def ignoreInstCountSpec (valid pthread ignore_ic_pthread : Bool) : Bool :=
  ignore_ic_pthread && valid && pthread

/-! ## Concrete configurations -/

/-- An option table: both filter options on, every path distinct. -/
def exampleKnob : Knob :=
  { ValueBool := fun name => name == "ignore_ic_pthread" || name == "ignore_lib",
    ValueStr := fun name => name ++ ".path" }

/-- A static info with three images. -/
def exampleStaticInfo : StaticInfo :=
  { FindImage := fun name =>
      if name = "libpthread.so.0" then some { pthread := true, common_lib := true }
      else if name = "libc.so.6" then some { pthread := false, common_lib := true }
      else if name = "a.out" then some { pthread := false, common_lib := false }
      else none }

/-- A controller after `HandlePreSetup`, for given answers to `Enabled()`. -/
def exampleProfiler (enabled : AnalyzerClass → Bool) : ChessProfiler :=
  (HandlePreSetup (ChessProfiler.new exampleKnob exampleStaticInfo enabled)).state

def pthreadImg : IMG := { valid := true, name := "libpthread.so.0" }

def libcImg : IMG := { valid := true, name := "libc.so.6" }

def invalidImg : IMG := { valid := false, name := "" }

/-! ## Default options -/

/-- Modelled from the spec: the option table class is declared outside this
file.  By the spec the options are "consumed at setup" and the paths are
"defaulting to fixed filenames": an option that the command line does not
set has the default it was registered with; a boolean default is written
"1" for on and "0" for off. -/
def Knob.defaults (evs : List Event) : Knob :=
  { ValueBool := fun name =>
      match evs.findSome? fun e =>
          match e with
          | .RegisterBool n _ val => if n = name then some val else none
          | _ => none with
      | some val => val == "1"
      | none => false,
    ValueStr := fun name =>
      match evs.findSome? fun e =>
          match e with
          | .RegisterStr n _ val => if n = name then some val else none
          | _ => none with
      | some val => val
      | none => "" }

/-- Modelled from the spec: command line parsing happens between
`HandlePreSetup` and `HandlePostSetup`, outside this file; with an empty
command line every option keeps its registered default. -/
def parseEmptyCommandLine : Step Unit := fun s =>
  .done () { s with knob_ := Knob.defaults s.trace }

/-- The three handlers in lifecycle order, run with default options. -/
def runWithDefaultOptions : Step Unit := do
  HandlePreSetup
  parseEmptyCommandLine
  HandlePostSetup
  HandleProgramExit

/-- The store and path of each entry of `loads` or `saves`. -/
def paths (calls : List (Store × Ref × String)) : List (Store × String) :=
  calls.map fun c => (c.1, c.2.2)

/-- Only the baseline observer is enabled. -/
def observerOnly : AnalyzerClass → Bool
  | .observer => true
  | _ => false

/-- Every analyzer is enabled: the conflicting configuration. -/
def allEnabled : AnalyzerClass → Bool := fun _ => true

/-! ## Theorems: the filtering predicates -/

/-- C4: under the precondition that a valid image is found in the static
info (as `image`), `HandleIgnoreMemAccess` returns, without failing its
assertion, the value fixed by the validity of the image, the two flags of
the found image and the `ignore_lib` option; that value is true iff the
image is invalid, or is the threading library, or `ignore_lib` is on and
the image is a common library. -/
theorem HandleIgnoreMemAccess_spec (self : ChessProfiler) (img : IMG) (image : Image)
    (hfound : IMG_Valid img = true → self.sinfo_.FindImage (IMG_Name img) = some image) :
    (HandleIgnoreMemAccess self img).result =
        some (ignoreMemAccessSpec (IMG_Valid img) image.IsPthread image.IsCommonLib
          (self.knob_.ValueBool "ignore_lib")) ∧
      ((HandleIgnoreMemAccess self img).result = some true ↔
        (IMG_Valid img = false ∨ image.IsPthread = true ∨
          (self.knob_.ValueBool "ignore_lib" = true ∧ image.IsCommonLib = true))) := by
  unfold HandleIgnoreMemAccess ignoreMemAccessSpec
  cases hv : IMG_Valid img
  · simp
  · rw [hfound hv]
    cases hp : image.IsPthread <;> cases hl : self.knob_.ValueBool "ignore_lib" <;>
      cases hc : image.IsCommonLib <;> simp [hp, hl, hc]

/-- Witness of C4: the C library image, with `ignore_lib` on, is ignored. -/
theorem HandleIgnoreMemAccess_spec_witness :
    (HandleIgnoreMemAccess (exampleProfiler fun _ => false) libcImg).result = some true :=
  ((HandleIgnoreMemAccess_spec (exampleProfiler fun _ => false) libcImg
      { pthread := false, common_lib := true } (fun _ => rfl)).2).2
    (Or.inr (Or.inr ⟨rfl, rfl⟩))

/-- C5: under the precondition that a valid image is found in the static
info (as `image`), `HandleIgnoreInstCount` returns, without failing its
assertion, true iff `ignore_ic_pthread` is on, the image is valid and it is
the threading library; with the option off, or for an invalid image, it
returns false whatever the static info holds. -/
theorem HandleIgnoreInstCount_spec (self : ChessProfiler) (img : IMG) (image : Image)
    (hfound : IMG_Valid img = true → self.sinfo_.FindImage (IMG_Name img) = some image) :
    (HandleIgnoreInstCount self img).result =
        some (ignoreInstCountSpec (IMG_Valid img) image.IsPthread
          (self.knob_.ValueBool "ignore_ic_pthread")) ∧
      ((HandleIgnoreInstCount self img).result = some true ↔
        (self.knob_.ValueBool "ignore_ic_pthread" = true ∧ IMG_Valid img = true ∧
          image.IsPthread = true)) ∧
      (∀ (other : ChessProfiler) (i : IMG),
        other.knob_.ValueBool "ignore_ic_pthread" = false →
          (HandleIgnoreInstCount other i).result = some false) ∧
      (∀ (other : ChessProfiler) (i : IMG),
        IMG_Valid i = false → (HandleIgnoreInstCount other i).result = some false) := by
  unfold ignoreInstCountSpec
  refine ⟨?_, ?_, ?_, ?_⟩
  · unfold HandleIgnoreInstCount
    cases hk : self.knob_.ValueBool "ignore_ic_pthread"
    · simp
    · cases hv : IMG_Valid img
      · simp
      · rw [hfound hv]
        cases hp : image.IsPthread <;> simp [hp]
  · unfold HandleIgnoreInstCount
    cases hk : self.knob_.ValueBool "ignore_ic_pthread"
    · simp
    · cases hv : IMG_Valid img
      · simp
      · rw [hfound hv]
        cases hp : image.IsPthread <;> simp [hp]
  · intro other i hk
    simp [HandleIgnoreInstCount, hk]
  · intro other i hv
    unfold HandleIgnoreInstCount
    cases hk : other.knob_.ValueBool "ignore_ic_pthread" <;> simp [hv]

/-- Witness of C5: the threading library, with `ignore_ic_pthread` on, is
not counted. -/
theorem HandleIgnoreInstCount_spec_witness :
    (HandleIgnoreInstCount (exampleProfiler fun _ => false) pthreadImg).result = some true :=
  ((HandleIgnoreInstCount_spec (exampleProfiler fun _ => false) pthreadImg
      { pthread := true, common_lib := true } (fun _ => rfl)).2.1).2 ⟨rfl, rfl, rfl⟩

/-- C9: whenever `HandleIgnoreInstCount` returns true, so does
`HandleIgnoreMemAccess`, for every controller (every option setting and
static info) and every image; the converse fails for the invalid image,
which is ignored for memory access and not for instruction counting. -/
theorem HandleIgnoreInstCount_imp_HandleIgnoreMemAccess :
    (∀ (self : ChessProfiler) (img : IMG),
      (HandleIgnoreInstCount self img).result = some true →
        (HandleIgnoreMemAccess self img).result = some true) ∧
      (HandleIgnoreMemAccess (exampleProfiler fun _ => false) invalidImg).result = some true ∧
      (HandleIgnoreInstCount (exampleProfiler fun _ => false) invalidImg).result = some false := by
  refine ⟨?_, rfl, rfl⟩
  intro self img
  unfold HandleIgnoreInstCount HandleIgnoreMemAccess
  cases hk : self.knob_.ValueBool "ignore_ic_pthread"
  · simp
  · cases hv : IMG_Valid img
    · simp
    · cases hf : self.sinfo_.FindImage (IMG_Name img) with
      | none => simp
      | some image => cases hp : image.IsPthread <;> simp [hp]

/-- Witness of C9: the threading library is ignored by both filters. -/
theorem HandleIgnoreInstCount_imp_HandleIgnoreMemAccess_witness :
    (HandleIgnoreMemAccess (exampleProfiler fun _ => false) pthreadImg).result = some true :=
  HandleIgnoreInstCount_imp_HandleIgnoreMemAccess.1 (exampleProfiler fun _ => false)
    pthreadImg rfl

/-- C10: both filters call `FindImage` only for a valid image, and then
once, with the name of that image; `HandleIgnoreInstCount` makes no call
at all when `ignore_ic_pthread` is off; and when the valid image is found
in the static info, neither `DEBUG_ASSERT(image)` fails. -/
theorem filters_lookup_only_valid (self : ChessProfiler) (img : IMG) :
    (IMG_Valid img = false →
      (HandleIgnoreInstCount self img).lookups = [] ∧
        (HandleIgnoreMemAccess self img).lookups = []) ∧
      (self.knob_.ValueBool "ignore_ic_pthread" = false →
        (HandleIgnoreInstCount self img).lookups = []) ∧
      (IMG_Valid img = true →
        (HandleIgnoreMemAccess self img).lookups = [IMG_Name img] ∧
          (HandleIgnoreInstCount self img).lookups =
            if self.knob_.ValueBool "ignore_ic_pthread" then [IMG_Name img] else []) ∧
      (ImageKnown self img →
        (HandleIgnoreInstCount self img).result ≠ none ∧
          (HandleIgnoreMemAccess self img).result ≠ none) := by
  unfold ImageKnown HandleIgnoreInstCount HandleIgnoreMemAccess
  cases hk : self.knob_.ValueBool "ignore_ic_pthread" <;> cases hv : IMG_Valid img <;>
    cases hf : self.sinfo_.FindImage (IMG_Name img) with
    | none => simp
    | some image =>
      cases hp : image.IsPthread <;> cases hl : self.knob_.ValueBool "ignore_lib" <;>
        cases hc : image.IsCommonLib <;> simp [hp, hl, hc]

/-- Witness of C10: the C library image is valid and known; it is looked up
once by each filter and no assertion fails. -/
theorem filters_lookup_only_valid_witness :
    (HandleIgnoreMemAccess (exampleProfiler fun _ => false) libcImg).lookups = ["libc.so.6"] ∧
      (HandleIgnoreInstCount (exampleProfiler fun _ => false) libcImg).result ≠ none :=
  ⟨((filters_lookup_only_valid (exampleProfiler fun _ => false) libcImg).2.2.1 rfl).1,
    ((filters_lookup_only_valid (exampleProfiler fun _ => false) libcImg).2.2.2
      (fun _ => ⟨_, rfl⟩)).1⟩

/-! ## Theorems: the lifecycle handlers -/

/-- C1: on a controller whose analyzers are constructed, `HandlePostSetup`
calls `Abort` iff both observers answer `Enabled()`, and it ends aborted
in exactly that case; if at most one observer is enabled it returns
normally and `Abort` is not called. -/
theorem HandlePostSetup_abort_iff (s : ChessProfiler) (a o n : Ref) (hw : Wired s a o n) :
    (calledAbort ((HandlePostSetup s).events s) = true ↔
        (s.enabled .observer = true ∧ s.enabled .observer_new = true)) ∧
      ((HandlePostSetup s).isAborted = true ↔
        (s.enabled .observer = true ∧ s.enabled .observer_new = true)) ∧
      (¬(s.enabled .observer = true ∧ s.enabled .observer_new = true) →
        (HandlePostSetup s).isDone = true ∧
          calledAbort ((HandlePostSetup s).events s) = false) := by
  obtain ⟨hs, ho, hn⟩ := hw
  cases h1 : s.enabled .sinst_analyzer <;> cases h2 : s.enabled .observer <;>
    cases h3 : s.enabled .observer_new <;>
    simp [HandlePostSetup, Result.events, Result.state, Result.isDone, Result.isAborted, bind, Step.bind, pure,
      Step.pure, emit, alloc, deref, ValueStr, ValueBool, CreateMutex, Store.assign, Enabled,
      AnalyzerClass.member, Abort, calledAbort, Event.isAbort, setUp, added, loads, hs, ho, hn, h1, h2, h3]

/-- Witness of C1: with every analyzer enabled the handler aborts. -/
theorem HandlePostSetup_abort_iff_witness :
    Wired (exampleProfiler allEnabled) 0 1 2 ∧
      (HandlePostSetup (exampleProfiler allEnabled)).isAborted = true :=
  ⟨⟨rfl, rfl, rfl⟩,
    (HandlePostSetup_abort_iff (exampleProfiler allEnabled) 0 1 2 ⟨rfl, rfl, rfl⟩).2.1.2
      ⟨rfl, rfl⟩⟩

/-- C2 as stated fails: with every analyzer enabled the handler aborts,
and at that point the shared-instruction analyzer has already been set up
and passed to `AddAnalyzer`. -/
theorem HandlePostSetup_abort_after_sinst_analyzer :
    (HandlePostSetup (exampleProfiler allEnabled)).isAborted = true ∧
      setUp .sinst_analyzer
        ((HandlePostSetup (exampleProfiler allEnabled)).events (exampleProfiler allEnabled))
          = [0] ∧
      added .sinst_analyzer
        ((HandlePostSetup (exampleProfiler allEnabled)).events (exampleProfiler allEnabled))
          = [0] := by
  refine ⟨rfl, rfl, rfl⟩

/-- C2 amended: when both observers are enabled the handler ends aborted,
the `Abort` call is the last call it makes, neither observer has been set
up or passed to `AddAnalyzer`, and the shared-instruction analyzer has
been set up and added exactly when it is enabled. -/
theorem HandlePostSetup_abort_before_observers (s : ChessProfiler) (a o n : Ref)
    (hw : Wired s a o n)
    (hboth : s.enabled .observer = true ∧ s.enabled .observer_new = true) :
    (HandlePostSetup s).isAborted = true ∧
      ((HandlePostSetup s).events s).getLast? = some (.Abort "Please choose an observer.\n") ∧
      setUp .observer ((HandlePostSetup s).events s) = [] ∧
      added .observer ((HandlePostSetup s).events s) = [] ∧
      setUp .observer_new ((HandlePostSetup s).events s) = [] ∧
      added .observer_new ((HandlePostSetup s).events s) = [] ∧
      setUp .sinst_analyzer ((HandlePostSetup s).events s) =
        (if s.enabled .sinst_analyzer then [a] else []) ∧
      added .sinst_analyzer ((HandlePostSetup s).events s) =
        (if s.enabled .sinst_analyzer then [a] else []) := by
  obtain ⟨hs, ho, hn⟩ := hw
  obtain ⟨h2, h3⟩ := hboth
  cases h1 : s.enabled .sinst_analyzer <;>
    simp [HandlePostSetup, Result.events, Result.state, Result.isDone, Result.isAborted, bind, Step.bind, pure,
      Step.pure, emit, alloc, deref, ValueStr, ValueBool, CreateMutex, Store.assign, Enabled,
      AnalyzerClass.member, Abort, calledAbort, Event.isAbort, setUp, added, loads, hs, ho, hn, h1, h2, h3]

/-- Witness of C2 amended: the conflicting configuration. -/
theorem HandlePostSetup_abort_before_observers_witness :
    Wired (exampleProfiler allEnabled) 0 1 2 ∧
      added .observer
        ((HandlePostSetup (exampleProfiler allEnabled)).events (exampleProfiler allEnabled))
          = [] :=
  ⟨⟨rfl, rfl, rfl⟩,
    (HandlePostSetup_abort_before_observers (exampleProfiler allEnabled) 0 1 2
      ⟨rfl, rfl, rfl⟩ ⟨rfl, rfl⟩).2.2.2.1⟩

/-- C3: when `HandlePostSetup` returns normally, each observer has been set
up and passed to `AddAnalyzer` once if it is enabled and not at all
otherwise, the two observers are not both enabled, so at most one of them
has been set up and added; with both disabled no observer is set up or
added and the three stores are loaded all the same. -/
theorem HandlePostSetup_at_most_one_observer (s : ChessProfiler) (a o n : Ref)
    (hw : Wired s a o n) (hdone : (HandlePostSetup s).isDone = true) :
    setUp .observer ((HandlePostSetup s).events s) =
        (if s.enabled .observer then [o] else []) ∧
      added .observer ((HandlePostSetup s).events s) =
        (if s.enabled .observer then [o] else []) ∧
      setUp .observer_new ((HandlePostSetup s).events s) =
        (if s.enabled .observer_new then [n] else []) ∧
      added .observer_new ((HandlePostSetup s).events s) =
        (if s.enabled .observer_new then [n] else []) ∧
      ¬(s.enabled .observer = true ∧ s.enabled .observer_new = true) ∧
      (setUp .observer ((HandlePostSetup s).events s) = [] ∨
        setUp .observer_new ((HandlePostSetup s).events s) = []) ∧
      (added .observer ((HandlePostSetup s).events s) = [] ∨
        added .observer_new ((HandlePostSetup s).events s) = []) ∧
      (s.enabled .observer = false → s.enabled .observer_new = false →
        setUp .observer ((HandlePostSetup s).events s) = [] ∧
          added .observer ((HandlePostSetup s).events s) = [] ∧
          setUp .observer_new ((HandlePostSetup s).events s) = [] ∧
          added .observer_new ((HandlePostSetup s).events s) = [] ∧
          loads ((HandlePostSetup s).events s) =
            [(.iroot_db, s.fresh + 1, s.knob_.ValueStr "iroot_in"),
              (.memo, s.fresh + 3, s.knob_.ValueStr "memo_in"),
              (.sinst_db, s.fresh + 5, s.knob_.ValueStr "sinst_in")]) := by
  obtain ⟨hs, ho, hn⟩ := hw
  revert hdone
  cases h1 : s.enabled .sinst_analyzer <;> cases h2 : s.enabled .observer <;>
    cases h3 : s.enabled .observer_new <;>
    simp [HandlePostSetup, Result.events, Result.state, Result.isDone, Result.isAborted, bind, Step.bind, pure,
      Step.pure, emit, alloc, deref, ValueStr, ValueBool, CreateMutex, Store.assign, Enabled,
      AnalyzerClass.member, Abort, calledAbort, Event.isAbort, setUp, added, loads, hs, ho, hn, h1, h2, h3]

/-- Witness of C3: only the baseline observer is enabled. -/
theorem HandlePostSetup_at_most_one_observer_witness :
    Wired (exampleProfiler observerOnly) 0 1 2 ∧
      (HandlePostSetup (exampleProfiler observerOnly)).isDone = true ∧
      added .observer
        ((HandlePostSetup (exampleProfiler observerOnly)).events (exampleProfiler observerOnly))
          = [1] :=
  ⟨⟨rfl, rfl, rfl⟩, rfl,
    (HandlePostSetup_at_most_one_observer (exampleProfiler observerOnly) 0 1 2
      ⟨rfl, rfl, rfl⟩ rfl).2.1⟩

set_option maxHeartbeats 4000000 in
/-- C8: whatever the analyzers answer to `Enabled()`, and however the
handler ends, `HandlePostSetup` starts with the same ten calls: each store
is created and then loaded, candidate store first, then the ledger, built
over the address of the candidate store, then the shared-instruction
registry.  These are the only `Load` calls, one per store, with the paths
of `iroot_in`, `memo_in` and `sinst_in`; changing any other option leaves
them unchanged.  Every `Setup` call receives the addresses of the stores
loaded here, which are also those the members hold at the end. -/
theorem HandlePostSetup_loads (s : ChessProfiler) :
    ((HandlePostSetup s).events s).take 10 =
        [.baseHandlePostSetup,
          .CreateMutex s.fresh,
          .newIRootDB (s.fresh + 1) s.fresh,
          .Load .iroot_db (s.fresh + 1) (s.knob_.ValueStr "iroot_in"),
          .CreateMutex (s.fresh + 2),
          .newMemo (s.fresh + 3) (s.fresh + 2) (s.fresh + 1),
          .Load .memo (s.fresh + 3) (s.knob_.ValueStr "memo_in"),
          .CreateMutex (s.fresh + 4),
          .newSharedInstDB (s.fresh + 5) (s.fresh + 4),
          .Load .sinst_db (s.fresh + 5) (s.knob_.ValueStr "sinst_in")] ∧
      loads ((HandlePostSetup s).events s) =
        [(.iroot_db, s.fresh + 1, s.knob_.ValueStr "iroot_in"),
          (.memo, s.fresh + 3, s.knob_.ValueStr "memo_in"),
          (.sinst_db, s.fresh + 5, s.knob_.ValueStr "sinst_in")] ∧
      (∀ knob : Knob,
        knob.ValueStr "iroot_in" = s.knob_.ValueStr "iroot_in" →
        knob.ValueStr "memo_in" = s.knob_.ValueStr "memo_in" →
        knob.ValueStr "sinst_in" = s.knob_.ValueStr "sinst_in" →
          loads ((HandlePostSetup { s with knob_ := knob }).events { s with knob_ := knob }) =
            loads ((HandlePostSetup s).events s)) ∧
      (∀ cls obj mutex iroot_db memo sinst_db,
        Event.SetupObserver cls obj mutex iroot_db memo sinst_db ∈
            (HandlePostSetup s).events s →
          iroot_db = s.fresh + 1 ∧ memo = s.fresh + 3 ∧ sinst_db = s.fresh + 5) ∧
      (∀ obj mutex sinst_db,
        Event.SetupSharedInstAnalyzer obj mutex sinst_db ∈ (HandlePostSetup s).events s →
          sinst_db = s.fresh + 5) ∧
      (HandlePostSetup s).state.iroot_db_ = some (s.fresh + 1) ∧
      (HandlePostSetup s).state.memo_ = some (s.fresh + 3) ∧
      (HandlePostSetup s).state.sinst_db_ = some (s.fresh + 5) := by
  cases hs : s.sinst_analyzer_ <;> cases ho : s.observer_ <;> cases hn : s.observer_new_ <;>
    cases h1 : s.enabled .sinst_analyzer <;> cases h2 : s.enabled .observer <;>
    cases h3 : s.enabled .observer_new <;>
    (simp [HandlePostSetup, Result.events, Result.state, Result.isDone, Result.isAborted, bind, Step.bind, pure,
      Step.pure, emit, alloc, deref, ValueStr, ValueBool, CreateMutex, Store.assign, Enabled,
      AnalyzerClass.member, Abort, calledAbort, Event.isAbort, setUp, added, loads, hs, ho, hn, h1, h2, h3]; try intros; try simp_all)

/-- C6: on a controller whose three stores exist, `HandleProgramExit`
returns normally after exactly five calls, in this order: the exit handler
of the base controller, one `RefineCandidate` on the ledger with first
argument the value of `memo_failed` and second argument false, then one
`Save` on the candidate store with the path of `iroot_out`, one on the
ledger with the path of `memo_out`, one on the shared-instruction registry
with the path of `sinst_out`. -/
theorem HandleProgramExit_calls (s : ChessProfiler) (i m d : Ref)
    (hi : s.iroot_db_ = some i) (hm : s.memo_ = some m) (hd : s.sinst_db_ = some d) :
    (HandleProgramExit s).isDone = true ∧
      (HandleProgramExit s).events s =
        [.baseHandleProgramExit,
          .RefineCandidate m (s.knob_.ValueBool "memo_failed") false,
          .Save .iroot_db i (s.knob_.ValueStr "iroot_out"),
          .Save .memo m (s.knob_.ValueStr "memo_out"),
          .Save .sinst_db d (s.knob_.ValueStr "sinst_out")] := by
  simp [HandleProgramExit, Result.events, Result.state, Result.isDone, Result.isAborted, bind, Step.bind, pure,
      Step.pure, emit, alloc, deref, ValueStr, ValueBool, CreateMutex, Store.assign, Enabled,
      AnalyzerClass.member, Abort, calledAbort, Event.isAbort, setUp, added, loads, hi, hm, hd]

/-- Witness of C6: the controller after a setup with only the baseline
observer enabled. -/
theorem HandleProgramExit_calls_witness :
    (HandleProgramExit (HandlePostSetup (exampleProfiler observerOnly)).state).events
        (HandlePostSetup (exampleProfiler observerOnly)).state =
      [.baseHandleProgramExit,
        .RefineCandidate 6 false false,
        .Save .iroot_db 4 "iroot_out.path",
        .Save .memo 6 "memo_out.path",
        .Save .sinst_db 8 "sinst_out.path"] :=
  (HandleProgramExit_calls (HandlePostSetup (exampleProfiler observerOnly)).state 4 6 8
    rfl rfl rfl).2

/-- C7: `HandlePreSetup` itself makes exactly nine registrations, in this
order and with these defaults: `ignore_ic_pthread` "1", `ignore_lib` "0",
`memo_failed` "1", and the six paths with `iroot.db`, `memo.db` and
`sinst.db` for both the input and the output option of each store.  With
these defaults and no option set on the command line, unless both
observers are enabled, the lifecycle completes and each store is saved at
exit to the path it was loaded from at setup, from the same object. -/
theorem HandlePreSetup_registrations (knob : Knob) (sinfo : StaticInfo)
    (enabled : AnalyzerClass → Bool) :
    registrations
        ((HandlePreSetup (ChessProfiler.new knob sinfo enabled)).events
          (ChessProfiler.new knob sinfo enabled)) =
        [.RegisterBool "ignore_ic_pthread" "do not count instructions in pthread" "1",
          .RegisterBool "ignore_lib" "whether ignore accesses from common libraries" "0",
          .RegisterBool "memo_failed" "Whether memoize failed-to-expose iroots." "1",
          .RegisterStr "iroot_in" "The input iroot database." "iroot.db",
          .RegisterStr "iroot_out" "The output iroot database" "iroot.db",
          .RegisterStr "memo_in" "The input memorization database." "memo.db",
          .RegisterStr "memo_out" "The output memorization database." "memo.db",
          .RegisterStr "sinst_in" "The input shared instruction database." "sinst.db",
          .RegisterStr "sinst_out" "The output shared instruction database." "sinst.db"] ∧
      (Knob.defaults (HandlePreSetup (ChessProfiler.new knob sinfo enabled)).state.trace).ValueBool
          "ignore_ic_pthread" = true ∧
      (Knob.defaults (HandlePreSetup (ChessProfiler.new knob sinfo enabled)).state.trace).ValueBool
          "ignore_lib" = false ∧
      (Knob.defaults (HandlePreSetup (ChessProfiler.new knob sinfo enabled)).state.trace).ValueBool
          "memo_failed" = true ∧
      (¬(enabled .observer = true ∧ enabled .observer_new = true) →
        (runWithDefaultOptions (ChessProfiler.new knob sinfo enabled)).isDone = true ∧
          loads (runWithDefaultOptions (ChessProfiler.new knob sinfo enabled)).state.trace =
            [(.iroot_db, 4, "iroot.db"), (.memo, 6, "memo.db"), (.sinst_db, 8, "sinst.db")] ∧
          saves (runWithDefaultOptions (ChessProfiler.new knob sinfo enabled)).state.trace =
            [(.iroot_db, 4, "iroot.db"), (.memo, 6, "memo.db"), (.sinst_db, 8, "sinst.db")]) := by
  cases h1 : enabled .sinst_analyzer <;> cases h2 : enabled .observer <;>
    cases h3 : enabled .observer_new <;>
    simp [HandlePreSetup, HandlePostSetup, HandleProgramExit, runWithDefaultOptions,
      parseEmptyCommandLine, Knob.defaults, registrations, saves, newAnalyzer,
      AnalyzerClass.assign, ChessProfiler.new, Result.events, Result.state, Result.isDone, Result.isAborted, bind, Step.bind, pure,
      Step.pure, emit, alloc, deref, ValueStr, ValueBool, CreateMutex, Store.assign, Enabled,
      AnalyzerClass.member, Abort, calledAbort, Event.isAbort, setUp, added, loads, h1, h2, h3]

/-- Witness of C7: default options, only the baseline observer enabled. -/
theorem HandlePreSetup_registrations_witness :
    paths (loads (runWithDefaultOptions
        (ChessProfiler.new exampleKnob exampleStaticInfo observerOnly)).state.trace) =
      paths (saves (runWithDefaultOptions
        (ChessProfiler.new exampleKnob exampleStaticInfo observerOnly)).state.trace) := by
  have h := (HandlePreSetup_registrations exampleKnob exampleStaticInfo observerOnly).2.2.2.2
    (by simp [observerOnly])
  rw [h.2.1, h.2.2]

end idiom
